import Mathlib

set_option maxRecDepth 100000

/-!
Shallow embedding of the checkpointed batch-processing core of the
gitmerge-exp repository, together with a verification of its specified
properties.

Sources embedded:
  * src/src/experiment/prompt.py                         (create_prompt)
  * src/src/experiment/utils.py                          (add_row_to_dataframe, handle_error)
  * src/src/experiment/conflict_resolution_generator.py  (process_dataframe)
  * src/src/experiment/main.py                           (process_data, regenerate_failed_resolutions)
  * src/src/experiment/regenerate_conflicts.py           (identify_failed_resolutions, process_file)
  * src/src/data_processing/merge_dataset.py             (merge_datasets)

Modelling conventions:
  * Python exceptions are modelled by `Except String`, the string being the
    Python exception message (what `str(e)` yields inside an f-string).
  * A pandas DataFrame of work items is modelled as a `List WorkItem`; a
    results DataFrame as a `List ResultRecord` in row order.
  * JSON values that may be absent or null are modelled with `Option`.
  * Logging, sleeping (`time.sleep`) and wall-clock timestamps have no
    observable effect on the values computed and are dropped; timestamps
    written into metadata are passed in as an explicit `now` argument.
  * File I/O is modelled by returning the value that would be serialized,
    wrapped so that "no file written" is observable.
-/

/-- A work item's `conflict_tuple` field as loaded from the JSONL dataset:
either a JSON object (a Python dict whose relevant values are strings), or
some non-dict value.  `create_prompt` only distinguishes dict versus
non-dict and reads string fields with a default. -/
inductive ConflictTuple where
  | dict (entries : List (String × String))
  | nonDict
deriving Repr, DecidableEq

/-- Dict lookup with a default, mirroring Python `d.get(key, "N/A")`. -/
def ConflictTuple.getField (entries : List (String × String)) (key : String) : String :=
  match entries.find? (fun p => p.1 == key) with
  | some p => p.2
  | none => "N/A"

/-- One row of the work-item dataset (JSONL source), with the fields read by
the batch runner and the triage pass: `id`, `commit_sha`, `conflict_tuple`,
`commit_message`. -/
structure WorkItem where
  id : Int
  commit_sha : String
  conflict_tuple : ConflictTuple
  commit_message : String
deriving Repr, DecidableEq

/-- One row of the results DataFrame built by the batch runner.  The
DataFrame is created with columns `id`, `commit_sha`, `conflict_resolution`;
a row whose construction omits the `id` column leaves a null in it, which is
modelled as `none`. -/
structure ResultRecord where
  id : Option Int
  commit_sha : String
  conflict_resolution : String
deriving Repr, DecidableEq

/-- The instruction text constant `system_prompt` of
src/src/experiment/prompt.py.  The constant is several thousand characters
of fixed English prose that every function in this development treats as an
opaque string (it is only ever concatenated in front of the conflict
contents), so it is abbreviated here to its title line; no theorem below
depends on its contents. -/
def system_prompt : String :=
  "# Git Merge Conflict Resolution Assistant"

/-- Translation of `create_prompt` (prompt.py lines 76-90): raises
ValueError when `conflict_tuple` is not a dict, otherwise reads the three
content fields with default "N/A" and formats the prompt. -/
def create_prompt (conflict_tuple : ConflictTuple) (commit_message : String) :
    Except String String :=
  match conflict_tuple with
  | .nonDict => .error "conflict_tuple não é um dicionário válido"
  | .dict entries =>
    let a_content := ConflictTuple.getField entries "a_content"
    let base_content := ConflictTuple.getField entries "base_content"
    let b_content := ConflictTuple.getField entries "b_content"
    .ok (system_prompt
      ++ "\n        A_CONTENT: " ++ a_content
      ++ "\n        B_CONTENT: " ++ b_content
      ++ "\n        BASE_CONTENT: " ++ base_content
      ++ "\n        COMMIT_MESSAGE: " ++ commit_message)

/-- Body of `add_row_to_dataframe` (utils.py lines 68-88).  The `index` and
`total_rows` parameters are declared by the source function but unused by
its body; the new row is built from `commit_sha` and `conflict_resolution`
only, so the `id` column of the appended row is left null. -/
def add_row_to_dataframe (df : List ResultRecord)
    (commit_sha conflict_resolution : String)
    (index total_rows : Int) : List ResultRecord :=
  df ++ [{ id := none, commit_sha := commit_sha,
           conflict_resolution := conflict_resolution }]

/-- Semantics of the call `add_row_to_dataframe(res_df, row['commit_sha'],
response_text, row['id'])` at conflict_resolution_generator.py line 53.
The call supplies 4 positional arguments, but the callee declares 5
parameters none of which has a default, so Python raises TypeError before
the callee's body can run.  The TypeError is raised inside the per-item
try block and carries the standard message. -/
def add_row_callsite (df : List ResultRecord)
    (commit_sha response_text : String) (id : Int) :
    Except String (List ResultRecord) :=
  .error "add_row_to_dataframe() missing 1 required positional argument: \x27total_rows\x27"

/-- Translation of `handle_error` (utils.py lines 91-109): appends a row
whose `conflict_resolution` is the sentinel f-string, built from
`commit_sha` and the error text only (no `id` column). -/
def handle_error (df : List ResultRecord) (row : WorkItem) (error : String) :
    List ResultRecord :=
  df ++ [{ id := none, commit_sha := row.commit_sha,
           conflict_resolution := "Erro ao gerar: " ++ error }]

/-- The per-item try/except body of `process_dataframe`
(conflict_resolution_generator.py lines 43-57): build the prompt, invoke
`generate_content_fn`, then append the success row via the (arity-broken)
`add_row_to_dataframe` call; any exception from those three steps is caught
and routed to `handle_error`. -/
def process_row (acc : List ResultRecord) (row : WorkItem)
    (gen : String → Except String String) : List ResultRecord :=
  match Except.bind (create_prompt row.conflict_tuple row.commit_message)
      (fun prompt => Except.bind (gen prompt)
        (fun response_text =>
          add_row_callsite acc row.commit_sha response_text row.id)) with
  | .ok res => res
  | .error e => handle_error acc row e

/-- One loop iteration of `process_dataframe`: fetch `df.iloc[index]` and
run the per-item body.  Inside the processed window the index is always in
bounds, so the `none` branch is unreachable there. -/
def process_item (df : List WorkItem) (gen : String → Except String String)
    (acc : List ResultRecord) (index : Nat) : List ResultRecord :=
  match df[index]? with
  | some row => process_row acc row gen
  | none => acc

/-- Translation of `process_dataframe` (conflict_resolution_generator.py
lines 9-63).  `max_requests = none` models the Python default `None`
(process all remaining rows).  Returns the accumulated results DataFrame
and the `end_index` value the source returns. -/
def process_dataframe (df : List WorkItem)
    (gen : String → Except String String)
    (start_index : Nat) (max_requests : Option Nat) :
    List ResultRecord × Nat :=
  let total_rows := df.length
  let maxr := max_requests.getD (total_rows - start_index)
  let end_index := min (start_index + maxr) total_rows
  ((List.range' start_index (end_index - start_index)).foldl
      (process_item df gen) [], end_index)

/-- The single record that one loop iteration of `process_dataframe`
appends for a work item, as established by `process_row_append` below:
if prompt construction or the invoker raises, the sentinel row from
`handle_error`; if the invoker succeeds, the arity TypeError of the
`add_row_to_dataframe` call is caught and also routed to `handle_error`. -/
def row_record (row : WorkItem) (gen : String → Except String String) :
    ResultRecord :=
  match create_prompt row.conflict_tuple row.commit_message with
  | .error e =>
      { id := none, commit_sha := row.commit_sha,
        conflict_resolution := "Erro ao gerar: " ++ e }
  | .ok prompt =>
    match gen prompt with
    | .error e =>
        { id := none, commit_sha := row.commit_sha,
          conflict_resolution := "Erro ao gerar: " ++ e }
    | .ok _ =>
        { id := none, commit_sha := row.commit_sha,
          conflict_resolution :=
            "Erro ao gerar: add_row_to_dataframe() missing 1 required positional argument: \x27total_rows\x27" }

/-- The while-loop body of `process_data` (main.py lines 163-201), with an
explicit fuel argument.  Each iteration computes the intended batch end,
runs `process_dataframe` on the batch, advances `current_index` to the
intended end, concatenates the batch results, and breaks out of the loop
when the batch reports an end index earlier than `end_index - 1`.
In the source the loop can only fail to terminate when `batch = 0`
(then `current_index` never advances); the fuel passed by `process_data`
is sufficient for every run with `batch ≥ 1`, and all theorems below
assume a positive batch size. -/
def process_data_loop (df : List WorkItem)
    (gen : String → Except String String) (start_index maxr batch : Nat) :
    Nat → Nat → List ResultRecord → List ResultRecord × Nat
  | 0, current_index, acc => (acc, current_index)
  | fuel + 1, current_index, acc =>
    if current_index < min df.length (start_index + maxr) then
      let end_index := min (current_index + batch) (start_index + maxr)
      let step := process_dataframe df gen current_index
        (some (end_index - current_index))
      let acc' := acc ++ step.1
      if step.2 < end_index - 1 then (acc', end_index)
      else process_data_loop df gen start_index maxr batch fuel end_index acc'
    else (acc, current_index)

/-- Translation of `process_data` (main.py lines 134-212).  Checkpoint
writes inside the loop have no effect on the returned value and are
dropped.  The returned pair is `(result_df, last_processed_index)` where
`last_processed_index = current_index - 1 if current_index > start_index
else start_index`. -/
def process_data (df : List WorkItem)
    (gen : String → Except String String)
    (start_index maxr checkpoint_interval : Nat) :
    List ResultRecord × Nat :=
  let batch := min checkpoint_interval maxr
  let out := process_data_loop df gen start_index maxr batch
    (maxr + 1) start_index []
  (out.1, if start_index < out.2 then out.2 - 1 else start_index)

/-- One element of a checkpoint file's `results` array as consumed by
`merge_datasets`, which reads only the `id` field and carries the rest of
the record through unchanged. -/
structure MergeRecord where
  id : Int
  commit_sha : String
  conflict_resolution : String
deriving Repr, DecidableEq

/-- The metadata fields of an input checkpoint file that `merge_datasets`
reads: `provider`, `model`, and optionally `last_processed_index` (`none`
models a metadata object without that key). -/
structure MergeInput where
  provider : String
  model : String
  last_processed_index : Option Int
  results : List MergeRecord
deriving Repr, DecidableEq

/-- The merged checkpoint file that `merge_datasets` serializes:
`last_processed_index = none` models a metadata object without that key. -/
structure MergeOutput where
  provider : String
  model : String
  timestamp : String
  total_records : Nat
  is_checkpoint : Bool
  last_processed_index : Option Int
  results : List MergeRecord
deriving Repr, DecidableEq

/-- The minimum `id` of a results array, `none` when the array is empty
(the source uses `float` infinity for an empty array). -/
def minId : List MergeRecord → Option Int
  | [] => none
  | r :: rs =>
    match minId rs with
    | none => some r.id
    | some m => some (min r.id m)

/-- Comparison `min_id1 <= min_id2` of merge_dataset.py line 39, where
`none` stands for the `float` infinity assigned to an empty results array
(infinity compares less-or-equal only to infinity). -/
def infLe : Option Int → Option Int → Bool
  | none, none => true
  | none, some _ => false
  | some _, none => true
  | some x, some y => x ≤ y

/-- Translation of `merge_datasets` (merge_dataset.py lines 8-66), file
loading dropped.  Returns `none` when the merge is rejected (differing
`model` fields: the source prints an error and returns before any output
file is written) and `some` of the file contents it writes otherwise.
`now` stands for `datetime.now().isoformat()`. -/
def merge_datasets (data1 data2 : MergeInput) (now : String) :
    Option MergeOutput :=
  if data1.model ≠ data2.model then none
  else
    let min_id1 := minId data1.results
    let min_id2 := minId data2.results
    let first_dataset := if infLe min_id1 min_id2 then data1 else data2
    let second_dataset := if infLe min_id1 min_id2 then data2 else data1
    some
      { provider := first_dataset.provider
        model := first_dataset.model
        timestamp := now
        total_records := first_dataset.results.length + second_dataset.results.length
        is_checkpoint := false
        last_processed_index :=
          match first_dataset.last_processed_index with
          | some v => some (max v (second_dataset.last_processed_index.getD 0))
          | none => none
        results := first_dataset.results ++ second_dataset.results }

/-- One element of a persisted checkpoint file's `results` array as loaded
by the triage passes.  Each field may be absent or null in the JSON, which
both read back as Python `None`; `none` models either. -/
structure TriageRecord where
  id : Option Int
  commit_sha : Option String
  conflict_resolution : Option String
deriving Repr, DecidableEq

/-- Check whether the character list starts with the pattern, used to build
Python string tests over `String.toList`. -/
def startsWithChars : List Char → List Char → Bool
  | [], _ => true
  | _ :: _, [] => false
  | p :: ps, c :: cs => p == c && startsWithChars ps cs

/-- Substring scan for `infixChars`. -/
def infixChars (pattern : List Char) : List Char → Bool
  | [] => pattern.isEmpty
  | c :: cs => startsWithChars pattern (c :: cs) || infixChars pattern cs

/-- Python `sub in s` (substring containment). -/
def containsSub (s sub : String) : Bool :=
  infixChars sub.toList s.toList

/-- Python `s.startswith(pre)`, computed structurally on the character
lists. -/
def pyStartsWith (s pre : String) : Bool :=
  startsWithChars pre.toList s.toList

/-- The per-record test of `identify_failed_resolutions`
(regenerate_conflicts.py lines 112-119): `result.get('conflict_resolution',
'')` must be a string (an absent key yields `''`, a null value is not a
string) that starts with the sentinel. -/
def failedPred (r : TriageRecord) : Bool :=
  match r.conflict_resolution with
  | some s => pyStartsWith s "Erro ao gerar"
  | none => false

/-- Translation of `identify_failed_resolutions` (regenerate_conflicts.py
lines 109-121): the indices, in order, of the records whose resolution
carries the sentinel.  The source's enumerate-and-append loop is the
filter of the index range. -/
def identify_failed_resolutions (results : List TriageRecord) : List Nat :=
  (List.range results.length).filter (fun i =>
    match results[i]? with
    | some r => failedPred r
    | none => false)

/-- The per-record test of the inline detection loop in
`regenerate_failed_resolutions` (main.py lines 276-287): sentinel start or
any of three error substrings. -/
def regenFailedPred (r : TriageRecord) : Bool :=
  match r.conflict_resolution with
  | some s =>
      pyStartsWith s "Erro ao gerar" ||
      containsSub s "Error generating content" ||
      containsSub s "RateLimitError" ||
      containsSub s "rate_limit_exceeded"
  | none => false

/-- The failed-index list built by the inline detection loop of
`regenerate_failed_resolutions` (main.py lines 276-287). -/
def regenFailedIndices (results : List TriageRecord) : List Nat :=
  (List.range results.length).filter (fun i =>
    match results[i]? with
    | some r => regenFailedPred r
    | none => false)

/-- State threaded through a triage regeneration loop: the (in-place
mutated) results list, the `updated_count` counter of
regenerate_conflicts.py, and an instrumentation log of the result indices
on whose behalf `llm_client.generate_content` was actually invoked, in
call order. -/
structure TriageState where
  results : List TriageRecord
  updated_count : Nat
  callLog : List Nat
deriving Repr, DecidableEq

/-- One iteration of the regeneration loop, shared verbatim (up to the
`updated_count` bookkeeping, which main.py simply does not read) by
`process_file` (regenerate_conflicts.py lines 153-189) and
`regenerate_failed_resolutions` (main.py lines 317-351): look the record's
`id` up in the original dataset (skip with a warning when absent — a null
or missing `id` compares equal to no dataset row); inside the try block
build the prompt and invoke the client, overwriting the record's
`conflict_resolution` on success; any exception is caught and leaves the
record as it was. -/
def triage_step (dataset : List WorkItem)
    (gen : String → Except String String)
    (st : TriageState) (result_idx : Nat) : TriageState :=
  match st.results[result_idx]? with
  | none => st
  | some result =>
    match dataset.find? (fun w => some w.id == result.id) with
    | none => st
    | some original_row =>
      match create_prompt original_row.conflict_tuple original_row.commit_message with
      | .error _ => st
      | .ok prompt =>
        match gen prompt with
        | .ok response_text =>
            { results := st.results.set result_idx
                { result with conflict_resolution := some response_text }
              updated_count := st.updated_count + 1
              callLog := st.callLog ++ [result_idx] }
        | .error _ =>
            { st with callLog := st.callLog ++ [result_idx] }

/-- Observable outcome of `process_file` (regenerate_conflicts.py): either
the early return with nothing written (no failed indices were found), or
the file it writes, carrying the updated results array, the
`regenerated_count` metadata field, and the `total_records` metadata
field. -/
inductive TriageOutcome where
  | noop
  | written (results : List TriageRecord)
      (regenerated_count total_records : Nat)
deriving Repr, DecidableEq

/-- Translation of `process_file` (regenerate_conflicts.py lines 123-223):
identify the failed indices; when there are none, return without writing;
otherwise run the regeneration loop over them in order and write the
updated results with the metadata counters.  Dataset-file resolution is
modelled by passing the loaded dataset directly.  The second component is
the instrumentation call log. -/
def process_file (results : List TriageRecord) (dataset : List WorkItem)
    (gen : String → Except String String) : TriageOutcome × List Nat :=
  let failed_indices := identify_failed_resolutions results
  if failed_indices.isEmpty then (.noop, [])
  else
    let final := failed_indices.foldl (triage_step dataset gen)
      { results := results, updated_count := 0, callLog := [] }
    (.written final.results final.updated_count final.results.length,
     final.callLog)

/-- Observable outcome of `regenerate_failed_resolutions` (main.py): either
the early `return input_file` with nothing written (no failed indices were
found), or the file it writes with the updated results array. -/
inductive RegenOutcome where
  | returnedInput
  | written (results : List TriageRecord)
deriving Repr, DecidableEq

/-- Translation of `regenerate_failed_resolutions` (main.py lines 244-381),
file loading and path derivation dropped: detect failed records with the
inline substring-matching loop; when none are found, return the input path
unchanged without writing; otherwise run the regeneration loop (identical
per-item body to `process_file`) and write the updated results.  The second
component is the instrumentation call log. -/
def regenerate_failed_resolutions (results : List TriageRecord)
    (dataset : List WorkItem) (gen : String → Except String String) :
    RegenOutcome × List Nat :=
  let failed_indices := regenFailedIndices results
  if failed_indices.isEmpty then (.returnedInput, [])
  else
    let final := failed_indices.foldl (triage_step dataset gen)
      { results := results, updated_count := 0, callLog := [] }
    (.written final.results, final.callLog)

/-- Default work item used only to express list indexing totally. -/
def wDefault : WorkItem :=
  { id := 0, commit_sha := "", conflict_tuple := .nonDict, commit_message := "" }

theorem getElem?_eq_getD {α : Type} (l : List α) (i : Nat) (d : α)
    (h : i < l.length) : l[i]? = some (l.getD i d) := by
  rw [List.getD_eq_getElem?_getD, List.getElem?_eq_getElem h]
  rfl

theorem process_row_append (acc : List ResultRecord) (row : WorkItem)
    (gen : String → Except String String) :
    process_row acc row gen = acc ++ [row_record row gen] := by
  unfold process_row row_record
  cases h1 : create_prompt row.conflict_tuple row.commit_message with
  | error e => rfl
  | ok p =>
    simp only [Except.bind]
    cases h2 : gen p with
    | error e => rfl
    | ok t => rfl

theorem row_record_commit_sha (row : WorkItem)
    (gen : String → Except String String) :
    (row_record row gen).commit_sha = row.commit_sha := by
  unfold row_record
  cases h1 : create_prompt row.conflict_tuple row.commit_message with
  | error e => rfl
  | ok p =>
    simp only []
    cases h2 : gen p with
    | error e => rfl
    | ok t => rfl

theorem row_record_id (row : WorkItem)
    (gen : String → Except String String) :
    (row_record row gen).id = none := by
  unfold row_record
  cases h1 : create_prompt row.conflict_tuple row.commit_message with
  | error e => rfl
  | ok p =>
    simp only []
    cases h2 : gen p with
    | error e => rfl
    | ok t => rfl

theorem foldl_process_item_map (df : List WorkItem)
    (gen : String → Except String String) :
    ∀ (l : List Nat) (acc : List ResultRecord),
      (∀ i ∈ l, i < df.length) →
      l.foldl (process_item df gen) acc
        = acc ++ l.map (fun i => row_record (df.getD i wDefault) gen) := by
  intro l
  induction l with
  | nil => intro acc _; simp
  | cons a l ih =>
    intro acc hmem
    have ha : a < df.length := hmem a (by simp)
    have hstep : process_item df gen acc a
        = acc ++ [row_record (df.getD a wDefault) gen] := by
      unfold process_item
      rw [getElem?_eq_getD df a wDefault ha]
      exact process_row_append acc (df.getD a wDefault) gen
    simp only [List.foldl_cons, hstep]
    rw [ih (acc ++ [row_record (df.getD a wDefault) gen])
      (fun i hi => hmem i (by simp [hi]))]
    simp

theorem process_dataframe_eq_map (df : List WorkItem)
    (gen : String → Except String String) (start_index maxr : Nat) :
    (process_dataframe df gen start_index (some maxr)).1
      = (List.range' start_index (min (start_index + maxr) df.length - start_index)).map
          (fun i => row_record (df.getD i wDefault) gen) := by
  unfold process_dataframe
  simp only [Option.getD_some]
  rw [foldl_process_item_map df gen _ []]
  · simp
  · intro i hi
    have := List.mem_range'_1.mp hi
    omega

theorem process_dataframe_length (df : List WorkItem)
    (gen : String → Except String String) (start_index maxr : Nat) :
    (process_dataframe df gen start_index (some maxr)).1.length
      = min (start_index + maxr) df.length - start_index := by
  rw [process_dataframe_eq_map]
  simp

theorem process_dataframe_getElem? (df : List WorkItem)
    (gen : String → Except String String) (start_index maxr i : Nat)
    (row : WorkItem)
    (hrow : df[start_index + i]? = some row)
    (hlt : start_index + i < min (start_index + maxr) df.length) :
    ((process_dataframe df gen start_index (some maxr)).1)[i]?
      = some (row_record row gen) := by
  rw [process_dataframe_eq_map]
  have hi : i < min (start_index + maxr) df.length - start_index := by omega
  rw [List.getElem?_map, List.range'_eq_map_range, List.getElem?_map,
    List.getElem?_range hi]
  simp [List.getD_eq_getElem?_getD, hrow]

/-- A well-formed work item whose conflict tuple is a valid dict. -/
def exRowOk : WorkItem :=
  { id := 7, commit_sha := "sha1",
    conflict_tuple := .dict
      [("a_content", "a"), ("b_content", "b"), ("base_content", "c")],
    commit_message := "msg" }

/-- A work item whose conflict tuple is malformed (not a dict). -/
def exRowBad : WorkItem :=
  { id := 9, commit_sha := "sha2", conflict_tuple := .nonDict,
    commit_message := "m2" }

/-- A Resolution Invoker that succeeds on every invocation. -/
def genOk : String → Except String String :=
  fun _ => .ok "resolved code"

/-- C1: the claim states that when the Resolution Invoker succeeds on every
invocation, no ResultRecord carries the sentinel.  The code violates this:
the success path calls add_row_to_dataframe with 4 of its 5 required
positional arguments, so Python raises TypeError inside the per-item try
block and the record is written by handle_error with the sentinel.  This
theorem evaluates the code at a one-item window with an always-succeeding
invoker: the single record produced is a sentinel error record. -/
theorem batchRunner_success_still_sentinel :
    (process_dataframe [exRowOk] genOk 0 (some 1)).1
      = [{ id := none, commit_sha := "sha1",
           conflict_resolution := "Erro ao gerar: add_row_to_dataframe() missing 1 required positional argument: \x27total_rows\x27" }] ∧
    ((process_dataframe [exRowOk] genOk 0 (some 1)).1.all
      (fun r => pyStartsWith r.conflict_resolution "Erro ao gerar")) = true := by
  constructor
  · rfl
  · decide

/-- C2: the claim states that every appended ResultRecord carries the
integer id of its WorkItem.  The code violates this on both paths: neither
add_row_to_dataframe's body nor handle_error writes an `id` column, so the
declared `id` column stays null for every record.  Evaluated here on a
two-item window covering the success path (item id 7) and the error path
(item id 9, malformed tuple): every produced record has a null id. -/
theorem resultRecord_missing_id :
    ((process_dataframe [exRowOk, exRowBad] genOk 0 (some 2)).1.map
        ResultRecord.id) = [none, none] ∧
    [exRowOk.id, exRowBad.id] = [(7 : Int), 9] := by
  constructor
  · rfl
  · rfl

/-- C3: for every non-empty attempt window, process_dataframe returns
exactly one ResultRecord per item of the window
`[start_index, min (start_index + max_requests) (length df))`, in the
items' original order (the record at offset i is the record of item
start_index + i and keeps its commit_sha), and this count holds for every
invoker behaviour, so an exception on one item never reduces the count or
stops later items from being attempted. -/
theorem process_dataframe_one_record_per_item
    (df : List WorkItem) (gen : String → Except String String)
    (start_index maxr : Nat)
    (hne : start_index < min (start_index + maxr) df.length) :
    (process_dataframe df gen start_index (some maxr)).1.length
        = min (start_index + maxr) df.length - start_index ∧
    ∀ i row, df[start_index + i]? = some row →
      start_index + i < min (start_index + maxr) df.length →
      ((process_dataframe df gen start_index (some maxr)).1)[i]?
          = some (row_record row gen) ∧
      (row_record row gen).commit_sha = row.commit_sha := by
  refine ⟨process_dataframe_length df gen start_index maxr, ?_⟩
  intro i row hrow hlt
  exact ⟨process_dataframe_getElem? df gen start_index maxr i row hrow hlt,
    row_record_commit_sha row gen⟩

/-- Witness for C3 at a concrete two-item window. -/
theorem process_dataframe_one_record_per_item_witness :
    (process_dataframe [exRowOk, exRowBad] genOk 0 (some 2)).1.length = 2 := by
  have h := process_dataframe_one_record_per_item [exRowOk, exRowBad] genOk 0 2
    (by decide)
  simpa using h.1

/-- C9: a malformed conflict_tuple (not a mapping) makes create_prompt
raise its validation error inside the same per-item try block that guards
Resolution Invoker calls; the item is recorded as a sentinel-prefixed error
ResultRecord, and the run continues: the window still yields its full
record count. -/
theorem malformed_tuple_caught_per_item
    (df : List WorkItem) (gen : String → Except String String)
    (start_index maxr k : Nat) (row : WorkItem)
    (hrow : df[k]? = some row)
    (hge : start_index ≤ k)
    (hlt : k < min (start_index + maxr) df.length)
    (hbad : row.conflict_tuple = .nonDict) :
    ((process_dataframe df gen start_index (some maxr)).1)[k - start_index]?
        = some { id := none, commit_sha := row.commit_sha,
                 conflict_resolution := "Erro ao gerar: conflict_tuple não é um dicionário válido" } ∧
    pyStartsWith "Erro ao gerar: conflict_tuple não é um dicionário válido"
        "Erro ao gerar" = true ∧
    (process_dataframe df gen start_index (some maxr)).1.length
        = min (start_index + maxr) df.length - start_index := by
  have hk : start_index + (k - start_index) = k := by omega
  refine ⟨?_, by decide, process_dataframe_length df gen start_index maxr⟩
  have h := process_dataframe_getElem? df gen start_index maxr
    (k - start_index) row (by rw [hk]; exact hrow) (by omega)
  rw [h]
  unfold row_record
  rw [hbad]
  rfl

/-- Witness for C9 at a concrete malformed item. -/
theorem malformed_tuple_caught_per_item_witness :
    ((process_dataframe [exRowBad] genOk 0 (some 1)).1)[0]?
        = some { id := none, commit_sha := "sha2",
                 conflict_resolution := "Erro ao gerar: conflict_tuple não é um dicionário válido" } := by
  have h := malformed_tuple_caught_per_item [exRowBad] genOk 0 1 0 exRowBad
    rfl (by decide) (by decide) rfl
  exact h.1

theorem process_dataframe_snd (df : List WorkItem)
    (gen : String → Except String String) (start_index m : Nat) :
    (process_dataframe df gen start_index (some m)).2
      = min (start_index + m) df.length := rfl

theorem process_data_loop_drained (df : List WorkItem)
    (gen : String → Except String String)
    (start_index maxr batch fuel : Nat) (acc : List ResultRecord)
    (hb : 0 < batch) (hbm : batch ≤ maxr) (hs : start_index < df.length)
    (hd : df.length < start_index + batch) (hf : 2 ≤ fuel) :
    process_data_loop df gen start_index maxr batch fuel start_index acc
      = (acc ++ (process_dataframe df gen start_index (some batch)).1,
         start_index + batch) := by
  obtain ⟨f, rfl⟩ : ∃ f, fuel = f + 2 := ⟨fuel - 2, by omega⟩
  have he : min (start_index + batch) (start_index + maxr)
      = start_index + batch := by omega
  have hsub : start_index + batch - start_index = batch := by omega
  simp only [process_data_loop, he, hsub]
  rw [if_pos (by omega : start_index < min df.length (start_index + maxr))]
  rw [process_dataframe_snd]
  have hmin : min (start_index + batch) df.length = df.length := by omega
  rw [hmin]
  by_cases hc : df.length < start_index + batch - 1
  · rw [if_pos hc]
  · rw [if_neg hc]
    rw [if_neg (by omega : ¬ start_index + batch < min df.length (start_index + maxr))]

/-- C4 (amended): on drained input — the collection holds fewer items than
the first attempted batch intends — process_data stops early and returns
normally with one record per actually available item, but the
last_processed_index it reports is the intended end of the attempted batch
minus one (start_index + min checkpoint_interval max_requests - 1), which
can exceed the index of the last item actually processed (length df - 1). -/
theorem process_data_drained_index_amended (df : List WorkItem)
    (gen : String → Except String String)
    (start_index maxr checkpoint_interval : Nat)
    (hb : 0 < min checkpoint_interval maxr)
    (hs : start_index < df.length)
    (hd : df.length < start_index + min checkpoint_interval maxr) :
    (process_data df gen start_index maxr checkpoint_interval).2
        = start_index + min checkpoint_interval maxr - 1 ∧
    (process_data df gen start_index maxr checkpoint_interval).1.length
        = df.length - start_index := by
  have hloop := process_data_loop_drained df gen start_index maxr
    (min checkpoint_interval maxr) (maxr + 1) [] hb (min_le_right _ _) hs hd
    (by omega)
  unfold process_data
  simp only [hloop, List.nil_append]
  rw [if_pos (by omega : start_index < start_index + min checkpoint_interval maxr)]
  refine ⟨rfl, ?_⟩
  rw [process_dataframe_length]
  omega

/-- Work-item collection with two items, used for drained-input runs. -/
def exDf4 : List WorkItem := [exRowOk, exRowBad]

/-- C4 counterexample: with 2 available items, start_index 0, max_requests
10 and checkpoint_interval 50, the input drains inside the first batch; the
run stops early but process_data reports last_processed_index = 9, the
intended batch end minus one, while the last item actually processed has
index 1.  This refutes the claim that the reported index equals the index
of the last item actually processed. -/
theorem process_data_drained_reports_wrong_index_cx :
    (process_data exDf4 genOk 0 10 50).2 = 9 ∧
    exDf4.length - 1 = 1 ∧ (9 : Nat) ≠ 1 := by
  refine ⟨?_, rfl, by decide⟩
  rw [show (50 : Nat) = min 50 10 + 40 from rfl]
  rfl

/-- Witness for the amended C4 at the same concrete drained input. -/
theorem process_data_drained_index_amended_witness :
    (process_data exDf4 genOk 0 10 50).2 = 0 + min 50 10 - 1 ∧
    (process_data exDf4 genOk 0 10 50).1.length = exDf4.length - 0 :=
  process_data_drained_index_amended exDf4 genOk 0 10 50 (by decide)
    (by decide) (by decide)

/-- Sample merge-input record. -/
def exMergeRec (i : Int) : MergeRecord :=
  { id := i, commit_sha := "s", conflict_resolution := "r" }

/-- First checkpoint file of the merge example in the specification:
results with ids 5 and 6. -/
def exMergeA : MergeInput :=
  { provider := "p", model := "gemini-2.0-flash",
    last_processed_index := none,
    results := [exMergeRec 5, exMergeRec 6] }

/-- Second checkpoint file of the merge example in the specification:
results with ids 1 and 2. -/
def exMergeB : MergeInput :=
  { provider := "p", model := "gemini-2.0-flash",
    last_processed_index := none,
    results := [exMergeRec 1, exMergeRec 2] }

/-- A checkpoint file of a different model. -/
def exMergeC : MergeInput :=
  { provider := "p", model := "other-model",
    last_processed_index := none, results := [exMergeRec 1] }

/-- C5: for checkpoint files whose model fields are equal (and whose
results are non-empty, with minimum ids m1 and m2), merge_datasets writes
one file whose results are the two input sequences concatenated with the
smaller-minimum-id file first, and whose total_records is the sum of the
input lengths; for differing model fields it writes nothing. -/
theorem merge_datasets_spec (d1 d2 : MergeInput) (now : String) (m1 m2 : Int)
    (h1 : minId d1.results = some m1) (h2 : minId d2.results = some m2) :
    (d1.model = d2.model →
      (merge_datasets d1 d2 now).map MergeOutput.results
          = some (if m1 ≤ m2 then d1.results ++ d2.results
                  else d2.results ++ d1.results) ∧
      (merge_datasets d1 d2 now).map MergeOutput.total_records
          = some (d1.results.length + d2.results.length)) ∧
    (d1.model ≠ d2.model → merge_datasets d1 d2 now = none) := by
  constructor
  · intro hm
    simp only [merge_datasets, h1, h2, infLe]
    rw [if_neg (by simp [hm])]
    by_cases hle : m1 ≤ m2
    · simp [hle]
    · simp [hle]
      omega
  · intro hm
    simp only [merge_datasets]
    rw [if_pos hm]

/-- Witness for C5: the specification's merge example, plus the rejection
of a differing-model merge. -/
theorem merge_datasets_spec_witness :
    (merge_datasets exMergeA exMergeB "t").map MergeOutput.results
        = some [exMergeRec 1, exMergeRec 2, exMergeRec 5, exMergeRec 6] ∧
    (merge_datasets exMergeA exMergeB "t").map MergeOutput.total_records
        = some 4 ∧
    merge_datasets exMergeA exMergeC "t" = none := by
  have h := merge_datasets_spec exMergeA exMergeB "t" 5 1 rfl rfl
  have hc := merge_datasets_spec exMergeA exMergeC "t" 5 1 rfl rfl
  refine ⟨?_, ?_, hc.2 (by decide)⟩
  · have hr := (h.1 rfl).1
    rw [if_neg (by decide)] at hr
    exact hr
  · exact (h.1 rfl).2

/-- A checkpoint file carrying a last_processed_index of 3 and minimum
id 1. -/
def exMerge3 : MergeInput :=
  { provider := "p", model := "gemini-2.0-flash",
    last_processed_index := some 3, results := [exMergeRec 1] }

/-- A checkpoint file without a last_processed_index key and minimum
id 1. -/
def exMerge1 : MergeInput :=
  { provider := "p", model := "gemini-2.0-flash",
    last_processed_index := none, results := [exMergeRec 1] }

/-- A checkpoint file carrying a last_processed_index of 7 and minimum
id 5. -/
def exMerge2 : MergeInput :=
  { provider := "p", model := "gemini-2.0-flash",
    last_processed_index := some 7, results := [exMergeRec 5] }

/-- C6 counterexample: the claim states that when last_processed_index is
present on at least one of the two inputs, the merged metadata carries the
maximum of the two.  Here the key is present only on the second-ordered
input (the one with the larger minimum id), and the merged file drops it
entirely — in both argument orders, so the drop follows the min-id
ordering, not the argument position: the code keys only on the
first-ordered input. -/
theorem merge_lpi_second_only_dropped_cx :
    (merge_datasets exMerge1 exMerge2 "t").map MergeOutput.last_processed_index
        = some none ∧
    (merge_datasets exMerge2 exMerge1 "t").map MergeOutput.last_processed_index
        = some none ∧
    exMerge2.last_processed_index = some 7 ∧
    some (none : Option Int) ≠ some (some (7 : Int)) := by
  refine ⟨rfl, rfl, rfl, by decide⟩

/-- C6 (amended): for every pair of mergeable files and both argument
orders, the merged file's last_processed_index is keyed on the
first-ordered input (the one with the smaller minimum id, the first
argument on ties): when present there it equals the maximum of the two
inputs' values with a missing value counting as 0; when absent there it is
absent from the merged file even if the second-ordered input carries
one. -/
theorem merge_lpi_first_dataset_keyed (d1 d2 : MergeInput) (now : String)
    (m1 m2 : Int) (h1 : minId d1.results = some m1)
    (h2 : minId d2.results = some m2) (hm : d1.model = d2.model) :
    (merge_datasets d1 d2 now).map MergeOutput.last_processed_index
      = some (if m1 ≤ m2 then
                match d1.last_processed_index with
                | some v => some (max v (d2.last_processed_index.getD 0))
                | none => none
              else
                match d2.last_processed_index with
                | some v => some (max v (d1.last_processed_index.getD 0))
                | none => none) := by
  simp only [merge_datasets, h1, h2, infLe]
  rw [if_neg (by simp [hm])]
  by_cases hle : m1 ≤ m2
  · simp [hle]
  · simp [hle]

/-- Witness for the amended C6, covering both orderings: with the
first-ordered input as the second argument (minimum ids 5 and 1) and the
key present on it, the merge takes the maximum of 3 and 7; with the
first-ordered input as the first argument and the key absent from it, the
merge drops the key. -/
theorem merge_lpi_first_dataset_keyed_witness :
    (merge_datasets exMerge2 exMerge3 "t").map MergeOutput.last_processed_index
        = some (some 7) ∧
    (merge_datasets exMerge1 exMerge2 "t").map MergeOutput.last_processed_index
        = some none := by
  have ha := merge_lpi_first_dataset_keyed exMerge2 exMerge3 "t" 5 1 rfl rfl rfl
  have hb := merge_lpi_first_dataset_keyed exMerge1 exMerge2 "t" 1 5 rfl rfl rfl
  constructor
  · rw [if_neg (by decide)] at ha
    exact ha
  · rw [if_pos (by decide)] at hb
    exact hb

/-- Per-index relation between a results list and its state after a triage
regeneration pass: every record is either unchanged or has had exactly its
conflict_resolution overwritten with a successful invoker response. -/
def UpdOnly (gen : String → Except String String)
    (res res' : List TriageRecord) : Prop :=
  ∀ i : Nat, res'[i]? = res[i]? ∨
    ∃ r resp prompt, res[i]? = some r ∧ gen prompt = Except.ok resp ∧
      res'[i]? = some { r with conflict_resolution := some resp }

theorem updOnly_refl (gen : String → Except String String)
    (res : List TriageRecord) : UpdOnly gen res res :=
  fun _ => Or.inl rfl

theorem upd_upd (r : TriageRecord) (x y : Option String) :
    ({ { r with conflict_resolution := x } with conflict_resolution := y }
        : TriageRecord)
      = { r with conflict_resolution := y } := rfl

theorem updOnly_trans (gen : String → Except String String)
    {a b c : List TriageRecord}
    (h1 : UpdOnly gen a b) (h2 : UpdOnly gen b c) : UpdOnly gen a c := by
  intro i
  rcases h2 i with hcb | ⟨r, resp, prompt, hb, hg, hc⟩
  · rcases h1 i with hba | ⟨r, resp, prompt, ha, hg, hb⟩
    · exact Or.inl (hcb.trans hba)
    · exact Or.inr ⟨r, resp, prompt, ha, hg, hcb.trans hb⟩
  · rcases h1 i with hba | ⟨r', resp', prompt', ha', hg', hb'⟩
    · exact Or.inr ⟨r, resp, prompt, hba.symm.trans hb, hg, hc⟩
    · have hr : r = { r' with conflict_resolution := some resp' } := by
        rw [hb] at hb'
        exact Option.some.inj hb'
      subst hr
      rw [upd_upd] at hc
      exact Or.inr ⟨r', resp, prompt, ha', hg, hc⟩

theorem triage_step_results_length (ds : List WorkItem)
    (gen : String → Except String String) (st : TriageState) (a : Nat) :
    (triage_step ds gen st a).results.length = st.results.length := by
  unfold triage_step
  split
  · rfl
  · split
    · rfl
    · split
      · rfl
      · split
        · simp
        · rfl

theorem triage_step_results_get_ne (ds : List WorkItem)
    (gen : String → Except String String) (st : TriageState) (a i : Nat)
    (h : i ≠ a) :
    (triage_step ds gen st a).results[i]? = st.results[i]? := by
  unfold triage_step
  split
  · rfl
  · split
    · rfl
    · split
      · rfl
      · split
        · exact List.getElem?_set_ne (Ne.symm h)
        · rfl

theorem triage_step_updOnly (ds : List WorkItem)
    (gen : String → Except String String) (st : TriageState) (a : Nat) :
    UpdOnly gen st.results (triage_step ds gen st a).results := by
  unfold triage_step
  split
  · exact updOnly_refl gen st.results
  · rename_i result hres
    split
    · exact updOnly_refl gen st.results
    · rename_i row hrow
      split
      · exact updOnly_refl gen st.results
      · rename_i p hp
        split
        · rename_i t ht
          intro i
          by_cases hia : i = a
          · subst hia
            have hlt : i < st.results.length :=
              (List.getElem?_eq_some_iff.mp hres).1
            exact Or.inr ⟨result, t, p, hres, ht,
              by simp [List.getElem?_set_self hlt]⟩
          · exact Or.inl (List.getElem?_set_ne (Ne.symm hia))
        · exact updOnly_refl gen st.results

theorem triage_step_callLog (ds : List WorkItem)
    (gen : String → Except String String) (st : TriageState) (a : Nat) :
    ∃ t0, (triage_step ds gen st a).callLog = st.callLog ++ t0 ∧
      t0.Sublist [a] := by
  unfold triage_step
  split
  · exact ⟨[], by simp, List.nil_sublist _⟩
  · split
    · exact ⟨[], by simp, List.nil_sublist _⟩
    · split
      · exact ⟨[], by simp, List.nil_sublist _⟩
      · split
        · exact ⟨[a], rfl, List.Sublist.refl _⟩
        · exact ⟨[a], rfl, List.Sublist.refl _⟩

theorem foldl_triage_facts (ds : List WorkItem)
    (gen : String → Except String String) :
    ∀ (L : List Nat) (st : TriageState),
      (L.foldl (triage_step ds gen) st).results.length
          = st.results.length ∧
      (∀ i, i ∉ L →
        (L.foldl (triage_step ds gen) st).results[i]? = st.results[i]?) ∧
      UpdOnly gen st.results (L.foldl (triage_step ds gen) st).results ∧
      ∃ t, (L.foldl (triage_step ds gen) st).callLog = st.callLog ++ t ∧
        t.Sublist L := by
  intro L
  induction L with
  | nil =>
    intro st
    exact ⟨rfl, fun i _ => rfl, updOnly_refl gen st.results,
      ⟨[], by simp, List.nil_sublist _⟩⟩
  | cons a L ih =>
    intro st
    obtain ⟨ihlen, ihne, ihupd, t', hlog', hsub'⟩ := ih (triage_step ds gen st a)
    obtain ⟨t0, hlog0, hsub0⟩ := triage_step_callLog ds gen st a
    simp only [List.foldl_cons]
    refine ⟨ihlen.trans (triage_step_results_length ds gen st a), ?_, ?_, ?_⟩
    · intro i hi
      have hia : i ≠ a := fun h => hi (h ▸ List.mem_cons_self a L)
      have hiL : i ∉ L := fun h => hi (List.mem_cons_of_mem a h)
      exact (ihne i hiL).trans (triage_step_results_get_ne ds gen st a i hia)
    · exact updOnly_trans gen (triage_step_updOnly ds gen st a) ihupd
    · refine ⟨t0 ++ t', by rw [hlog', hlog0, List.append_assoc], ?_⟩
      rcases List.sublist_singleton.mp hsub0 with h0 | h0
      · subst h0
        simpa using hsub'.cons a
      · subst h0
        simpa using hsub'.cons₂ a

theorem identify_nodup (results : List TriageRecord) :
    (identify_failed_resolutions results).Nodup :=
  (List.nodup_range results.length).filter _

theorem identify_mem_sentinel (results : List TriageRecord) (i : Nat)
    (h : i ∈ identify_failed_resolutions results) :
    ∃ r s, results[i]? = some r ∧ r.conflict_resolution = some s ∧
      pyStartsWith s "Erro ao gerar" = true := by
  unfold identify_failed_resolutions at h
  rw [List.mem_filter] at h
  obtain ⟨_, hpred⟩ := h
  cases hr : results[i]? with
  | none => rw [hr] at hpred; simp at hpred
  | some r =>
    rw [hr] at hpred
    simp only [] at hpred
    unfold failedPred at hpred
    cases hc : r.conflict_resolution with
    | none => rw [hc] at hpred; simp at hpred
    | some s =>
      rw [hc] at hpred
      exact ⟨r, s, rfl, hc, hpred⟩

/-- C7: a Failure Triage pass (process_file) invokes the Resolution Invoker
only on behalf of records whose conflict_resolution starts with the
sentinel, at most once per record in one pass; every record the detection
did not select appears in the written output unchanged (same id,
commit_sha, conflict_resolution); and every record of the output is either
byte-identical to its input record (in particular when the re-invocation
raised again, the previous error text is left in place) or is its input
record with only conflict_resolution overwritten by a successful invoker
response. -/
theorem process_file_triage_frame (results : List TriageRecord)
    (dataset : List WorkItem) (gen : String → Except String String) :
    (∀ i ∈ (process_file results dataset gen).2,
        ∃ r s, results[i]? = some r ∧ r.conflict_resolution = some s ∧
          pyStartsWith s "Erro ao gerar" = true) ∧
    ((process_file results dataset gen).2).Sublist
        (identify_failed_resolutions results) ∧
    (identify_failed_resolutions results).Nodup ∧
    (∀ out cnt tot,
      (process_file results dataset gen).1 = .written out cnt tot →
      out.length = results.length ∧
      (∀ i, i ∉ identify_failed_resolutions results →
        out[i]? = results[i]?) ∧
      (∀ i : Nat, out[i]? = results[i]? ∨
        ∃ r resp prompt, results[i]? = some r ∧
          gen prompt = Except.ok resp ∧
          out[i]? = some { r with conflict_resolution := some resp })) := by
  unfold process_file
  by_cases hempty : (identify_failed_resolutions results).isEmpty
  · rw [if_pos hempty]
    refine ⟨by simp, List.nil_sublist _, identify_nodup results, ?_⟩
    intro out cnt tot hcontra
    exact absurd hcontra (by simp)
  · rw [if_neg hempty]
    dsimp only
    obtain ⟨hlen, hne, hupd, t, hlog, hsub⟩ :=
      foldl_triage_facts dataset gen (identify_failed_resolutions results)
        { results := results, updated_count := 0, callLog := [] }
    simp only [List.nil_append] at hlog
    refine ⟨?_, ?_, identify_nodup results, ?_⟩
    · intro i hi
      rw [hlog] at hi
      exact identify_mem_sentinel results i (hsub.mem hi)
    · rw [hlog]
      exact hsub
    · intro out cnt tot hout
      have heq : out
          = ((identify_failed_resolutions results).foldl
              (triage_step dataset gen)
              { results := results, updated_count := 0, callLog := [] }).results :=
        (TriageOutcome.written.injEq _ _ _ _ _ _).mp hout.symm |>.1
      subst heq
      exact ⟨hlen, fun i hi => hne i hi, hupd⟩

/-- A sentinel-marked triage record for work item 1. -/
def exTrErr : TriageRecord :=
  { id := some 1, commit_sha := some "c1",
    conflict_resolution := some "Erro ao gerar: timeout" }

/-- A successful triage record. -/
def exTrOk : TriageRecord :=
  { id := some 2, commit_sha := some "c2",
    conflict_resolution := some "clean resolution" }

/-- The work item that sentinel record exTrErr points back to. -/
def exWi1 : WorkItem :=
  { id := 1, commit_sha := "c1",
    conflict_tuple := .dict [("a_content", "x")], commit_message := "m" }

/-- Witness for C7 at a concrete pass: one sentinel record and one clean
record; the call log only names the sentinel record's index, and the
written output keeps the full record count. -/
theorem process_file_triage_frame_witness :
    ((process_file [exTrErr, exTrOk] [exWi1] genOk).2).Sublist
        (identify_failed_resolutions [exTrErr, exTrOk]) ∧
    ([{ exTrErr with conflict_resolution := some "resolved code" },
        exTrOk] : List TriageRecord).length = [exTrErr, exTrOk].length := by
  have h := process_file_triage_frame [exTrErr, exTrOk] [exWi1] genOk
  refine ⟨h.2.1, ?_⟩
  exact (h.2.2.2 [{ exTrErr with conflict_resolution := some "resolved code" },
    exTrOk] 1 2 rfl).1

/-- A triage record whose resolution does not start with the sentinel but
contains the substring checked by main.py's inline detection loop. -/
def exTrRate : TriageRecord :=
  { id := some 1, commit_sha := some "c1",
    conflict_resolution := some "RateLimitError" }

/-- C8 counterexample: the claim states that a result set with no record
whose conflict_resolution starts with the sentinel makes the triage pass
perform zero Invoker calls and return the input path unchanged without
writing.  regenerate_failed_resolutions (main.py) also treats records
merely containing "RateLimitError" (and two other substrings) as failed:
on this one-record set with no sentinel-starting resolution it performs an
Invoker call (call log [0]) and writes an updated output instead of
returning the input path. -/
theorem regen_extra_substring_triggers_call_cx :
    pyStartsWith "RateLimitError" "Erro ao gerar" = false ∧
    (regenerate_failed_resolutions [exTrRate] [exWi1] genOk).2 = [0] ∧
    (regenerate_failed_resolutions [exTrRate] [exWi1] genOk).1
      = .written [{ exTrRate with conflict_resolution := some "resolved code" }] := by
  refine ⟨by decide, rfl, rfl⟩

/-- C8 (amended): when no record of the result set matches main.py's error
detection — conflict_resolution neither starts with the sentinel nor
contains "Error generating content", "RateLimitError" or
"rate_limit_exceeded" — regenerate_failed_resolutions performs zero
Resolution Invoker calls and returns the input path unchanged without
writing any output; in particular a second triage run on a file whose
first pass left no such record performs zero Invoker calls. -/
theorem regen_no_detected_failures_noop (results : List TriageRecord)
    (dataset : List WorkItem) (gen : String → Except String String)
    (h : regenFailedIndices results = []) :
    regenerate_failed_resolutions results dataset gen
      = (.returnedInput, []) := by
  unfold regenerate_failed_resolutions
  rw [h]
  rfl

/-- Witness for the amended C8: a one-record clean file makes the triage
pass a no-op with an empty call log. -/
theorem regen_no_detected_failures_noop_witness :
    regenerate_failed_resolutions [exTrOk] [exWi1] genOk
      = (.returnedInput, []) :=
  regen_no_detected_failures_noop [exTrOk] [exWi1] genOk (by decide)

/-- C10 counterexample: the claim states that identify_failed_resolutions
(regenerate_conflicts.py) and the inline detection loop of
regenerate_failed_resolutions (main.py) select the same indices for every
record list.  On a record whose resolution is "RateLimitError" the former
selects nothing and the latter selects index 0. -/
theorem failed_detection_differs_cx :
    identify_failed_resolutions [exTrRate] = [] ∧
    regenFailedIndices [exTrRate] = [0] ∧
    ([] : List Nat) ≠ [0] :=
  ⟨rfl, rfl, by decide⟩

/-- C10 (amended): identify_failed_resolutions always selects a sublist of
the indices selected by main.py's inline detection loop, and the two
selections coincide exactly on record lists in which every resolution that
contains one of the three extra error substrings also starts with the
sentinel. -/
theorem failed_detection_subset_and_equal (results : List TriageRecord) :
    (identify_failed_resolutions results).Sublist
        (regenFailedIndices results) ∧
    ((∀ r ∈ results, ∀ s, r.conflict_resolution = some s →
        (containsSub s "Error generating content" ||
         containsSub s "RateLimitError" ||
         containsSub s "rate_limit_exceeded") = true →
        pyStartsWith s "Erro ao gerar" = true) →
      identify_failed_resolutions results = regenFailedIndices results) := by
  constructor
  · apply List.monotone_filter_right
    intro i hp
    cases hr : results[i]? with
    | none => rw [hr] at hp; simp at hp
    | some r =>
      rw [hr] at hp
      dsimp only at hp ⊢
      unfold failedPred at hp
      unfold regenFailedPred
      cases hc : r.conflict_resolution with
      | none => rw [hc] at hp; simp at hp
      | some s =>
        rw [hc] at hp
        dsimp only at hp ⊢
        simp [hp]
  · intro hyp
    apply List.filter_congr
    intro i _
    cases hr : results[i]? with
    | none => rfl
    | some r =>
      have hrm : r ∈ results := List.getElem?_mem hr
      dsimp only
      unfold failedPred regenFailedPred
      cases hc : r.conflict_resolution with
      | none => rfl
      | some s =>
        dsimp only
        by_cases hps : pyStartsWith s "Erro ao gerar" = true
        · simp [hps]
        · have hsub : (containsSub s "Error generating content" ||
              containsSub s "RateLimitError" ||
              containsSub s "rate_limit_exceeded") = false := by
            cases hor : (containsSub s "Error generating content" ||
              containsSub s "RateLimitError" ||
              containsSub s "rate_limit_exceeded") with
            | false => rfl
            | true => exact absurd (hyp r hrm s hc hor) hps
          simp only [Bool.not_eq_true] at hps
          rw [hps]
          simp only [Bool.false_or]
          exact hsub.symm

/-- Witness for the amended C10: on a list with one sentinel record and one
clean record the two detection implementations select the same indices. -/
theorem failed_detection_subset_and_equal_witness :
    identify_failed_resolutions [exTrErr, exTrOk]
      = regenFailedIndices [exTrErr, exTrOk] := by
  refine (failed_detection_subset_and_equal [exTrErr, exTrOk]).2 ?_
  intro r hr s hs hsub
  rcases List.mem_cons.mp hr with h | h
  · subst h
    have hlit : "Erro ao gerar: timeout" = s := Option.some.inj hs
    subst hlit
    decide
  · rcases List.mem_cons.mp h with h2 | h2
    · subst h2
      have hlit : "clean resolution" = s := Option.some.inj hs
      subst hlit
      exact absurd hsub (by decide)
    · simp at h2
